import Mathlib

/-!
Shallow embedding of the Google-credential authentication flow of
`src/backend/main.py` (the `auth_google` endpoint), together with the
Mongo-style user store it writes to, and proofs of the specified
properties of that flow.

Modelling conventions:
* Times (`datetime.utcnow()`) are abstract `Nat` instants, passed in as
  parameters; the endpoint reads the clock twice (once for the upsert,
  once for the token expiry), so `auth_google` takes two instants.
* The external verification primitive `id_token.verify_oauth2_token` is
  an oracle: it either raises (modelled as `Except.error` carrying the
  library message) or returns the credential claims (`Except.ok`).
* The user store is a list of documents plus a fresh-id counter;
  `update_one` with `upsert=True` updates the first document matching
  the email filter, or inserts a new document; `find_one` returns the
  first matching document.  Store unreachability is modelled by two
  oracles (`updateErr`, `findErr`): when set, the corresponding store
  call raises with that message instead of executing.
* `jwt.encode` produces a record of the exact claim list, the key and
  the algorithm passed to it.
-/

/-- Identity claims extracted from a Google credential by the external
verifier (`idinfo` in `auth_google`).  Every claim is optional because the
source reads each one with `idinfo.get`. -/
structure IdInfo where
  iss : Option String
  email : Option String
  name : Option String
  picture : Option String
  sub : Option String
  deriving DecidableEq, Repr

/-- Process-wide configuration read from the environment in the source:
`JWT_SECRET` and `JWT_EXPIRES_MIN`. -/
structure Config where
  JWT_SECRET : String
  JWT_EXPIRES_MIN : Nat
  deriving DecidableEq, Repr

/-- The fixed signing algorithm: `JWT_ALG = "HS256"` in the source. -/
def JWT_ALG : String := "HS256"

/-- Default of the `JWT_EXPIRES_MIN` configuration, `int("43200")` in the
source (30 days expressed in minutes). -/
def JWT_EXPIRES_MIN_DEFAULT : Nat := 43200

/-- A document of the `user` collection, with the fields written by
`auth_google`.  `_id` is the store-generated identifier (modelled as a
counter value; the source stringifies it with `str`). -/
structure UserRecord where
  _id : Nat
  email : String
  name : Option String
  picture : Option String
  provider : String
  google_sub : Option String
  created_at : Nat
  updated_at : Nat
  deriving DecidableEq, Repr

/-- The `user` collection: its documents plus the counter from which the
store generates the `_id` of the next inserted document. -/
structure Store where
  docs : List UserRecord
  nextId : Nat
  deriving DecidableEq, Repr

/-- A JWT claim value: a string or a timestamp. -/
inductive ClaimValue where
  | str (s : String)
  | time (t : Nat)
  deriving DecidableEq, Repr

/-- A signed token as produced by `jwt.encode`: exactly the claim list,
the signing key and the algorithm that were passed in. -/
structure Jwt where
  claims : List (String × ClaimValue)
  key : String
  algorithm : String
  deriving DecidableEq, Repr

/-- Model of `jwt.encode(claims, key, algorithm=...)`. -/
def jwt_encode (claims : List (String × ClaimValue)) (key : String)
    (algorithm : String) : Jwt :=
  { claims := claims, key := key, algorithm := algorithm }

/-- The `UserOut` response model of the source: exactly these five fields. -/
structure UserOut where
  id : String
  email : String
  name : Option String
  picture : Option String
  provider : String
  deriving DecidableEq, Repr

/-- Outcome of one request to the endpoint: an `HTTPException` with its
status and detail, or the success body `{token, user}` (`AuthResponse`). -/
inductive AuthOutcome where
  | httpError (status : Nat) (detail : String)
  | success (token : Jwt) (user : UserOut)
  deriving DecidableEq, Repr

/-- The `$set` part of the upsert in `auth_google`: overwrite email, name,
picture, provider, google_sub and updated_at with the latest values,
leaving `_id` and `created_at` untouched. -/
def setFields (info : IdInfo) (email : String) (now : Nat)
    (r : UserRecord) : UserRecord :=
  { r with email := email, name := info.name, picture := info.picture,
           provider := "google", google_sub := info.sub, updated_at := now }

/-- Apply `f` to the first record whose email matches (Mongo `update_one`
touches at most one document). -/
def updateFirst (f : UserRecord → UserRecord) (email : String) :
    List UserRecord → List UserRecord
  | [] => []
  | r :: rs => if r.email == email then f r :: rs else r :: updateFirst f email rs

/-- The document inserted by the upsert when no record matches the email
filter: `$set` fields plus the `$setOnInsert` created_at, under a fresh
store-generated `_id`. -/
def newRecord (i : Nat) (info : IdInfo) (email : String) (now : Nat) : UserRecord :=
  { _id := i, email := email, name := info.name, picture := info.picture,
    provider := "google", google_sub := info.sub,
    created_at := now, updated_at := now }

/-- Model of `users.update_one({"email": email}, {"$set": ..,
"$setOnInsert": {"created_at": now}}, upsert=True)`. -/
def update_one (s : Store) (email : String) (info : IdInfo) (now : Nat) : Store :=
  if s.docs.any (fun r => r.email == email) then
    { s with docs := updateFirst (setFields info email now) email s.docs }
  else
    { docs := s.docs ++ [newRecord s.nextId info email now], nextId := s.nextId + 1 }

/-- Model of `users.find_one({"email": email})`. -/
def find_one (s : Store) (email : String) : Option UserRecord :=
  s.docs.find? (fun r => r.email == email)

/-- The issuer allowlist check of `auth_google`: membership of
`idinfo.get("iss")` in `["accounts.google.com", "https://accounts.google.com"]`
(a missing issuer claim is `None`, which is not in the list). -/
def issuerOk : Option String → Bool
  | some s => s == "accounts.google.com" || s == "https://accounts.google.com"
  | none => false

/-- Model of the external `id_token.verify_oauth2_token` call: when the
cryptographic verification (signature, expiry, audience) passes it
returns the claims carried by the credential, otherwise it raises with
the library error message. -/
def verify_oauth2_token (signatureOk : Bool) (libError : String)
    (claims : IdInfo) : Except String IdInfo :=
  if signatureOk then .ok claims else .error libError

/-- The `POST /auth/google` handler of `src/backend/main.py`.

Parameters model the ambient world of one call: the configuration, the
database handle (`none` when `db is None`), the submitted credential
string, the outcome of the external Google verification, the two store
reachability oracles (`some msg` makes the corresponding store call raise
with message `msg`), and the two clock readings (upsert time, expiry
base).  Returns the database state after the call and the response. -/
def auth_google (cfg : Config) (db : Option Store) (credential : String)
    (verifyResult : Except String IdInfo)
    (updateErr : Option String) (findErr : Option String)
    (now : Nat) (now2 : Nat) : Option Store × AuthOutcome :=
  match db with
  | none => (none, .httpError 500 "Database not configured")
  | some store =>
    if credential = "" then
      (some store, .httpError 400 "Missing credential")
    else
      match verifyResult with
      | .error e => (some store, .httpError 401 ("Invalid Google token: " ++ e))
      | .ok idinfo =>
        if issuerOk idinfo.iss = false then
          (some store, .httpError 401 "Invalid Google token: Wrong issuer.")
        else
          match idinfo.email with
          | none => (some store, .httpError 401 "Invalid Google token: No email in Google token")
          | some email =>
            if email = "" then
              (some store, .httpError 401 "Invalid Google token: No email in Google token")
            else
              match updateErr with
              | some msg => (some store, .httpError 401 ("Invalid Google token: " ++ msg))
              | none =>
                let store2 := update_one store email idinfo now
                match findErr with
                | some msg => (some store2, .httpError 401 ("Invalid Google token: " ++ msg))
                | none =>
                  match find_one store2 email with
                  | none =>
                    -- models the AttributeError raised by doc.get when
                    -- find_one returns None; unreachable right after an
                    -- upsert with the same filter
                    (some store2, .httpError 401 "Invalid Google token: NoneType object has no attribute get")
                  | some doc =>
                    let user_id := toString doc._id
                    let exp := now2 + cfg.JWT_EXPIRES_MIN
                    let token := jwt_encode
                      [("sub", ClaimValue.str user_id),
                       ("email", ClaimValue.str email),
                       ("exp", ClaimValue.time exp)] cfg.JWT_SECRET JWT_ALG
                    (some store2,
                     .success token
                       { id := user_id, email := email, name := idinfo.name,
                         picture := idinfo.picture, provider := "google" })

/-- Token part of an outcome, when the call succeeded. -/
def outToken : AuthOutcome → Option Jwt
  | .success t _ => some t
  | .httpError _ _ => none

/-- User view part of an outcome, when the call succeeded. -/
def outUser : AuthOutcome → Option UserOut
  | .success _ u => some u
  | .httpError _ _ => none

/-- Identifier returned in the user view, when the call succeeded. -/
def outUserId (o : AuthOutcome) : Option String := (outUser o).map UserOut.id

/-- One authentication request of a sequence: the submitted credential,
the claims the verifier extracts from it, and the two clock readings of
the call. -/
structure AuthCall where
  credential : String
  idinfo : IdInfo
  now1 : Nat
  now2 : Nat
  deriving DecidableEq, Repr

/-- Run a sequence of authentication requests against the store, each
with a reachable store and a successful external verification, threading
the store state; returns the final store and the list of responses. -/
def authSeq (cfg : Config) : Store → List AuthCall → Store × List AuthOutcome
  | s, [] => (s, [])
  | s, c :: cs =>
    let r := auth_google cfg (some s) c.credential (Except.ok c.idinfo)
      none none c.now1 c.now2
    let s2 := r.1.getD s
    let rest := authSeq cfg s2 cs
    (rest.1, r.2 :: rest.2)

/-- A concrete configuration: the development secret of the source and the
default expiry. -/
def sampleCfg : Config := ⟨"dev-secret-change-me", 43200⟩

/-- Concrete verified claims: accepted issuer, full profile. -/
def aliceInfo : IdInfo :=
  ⟨some "accounts.google.com", some "alice@example.com", some "Alice",
   some "pic1", some "gsub1"⟩

/-- Concrete verified claims for a later call by the same user: the other
accepted issuer, a changed name, and no picture claim. -/
def aliceInfo2 : IdInfo :=
  ⟨some "https://accounts.google.com", some "alice@example.com",
   some "Alice B.", none, some "gsub1"⟩

/-- Concrete claims with an issuer outside the allowlist. -/
def evilInfo : IdInfo :=
  ⟨some "evil.com", some "alice@example.com", none, none, some "gsub3"⟩

/-- Concrete claims that carry no email. -/
def noEmailInfo : IdInfo :=
  ⟨some "accounts.google.com", none, some "Bob", none, some "gsub2"⟩

/-- An empty user collection. -/
def emptyStore : Store := ⟨[], 0⟩

/-- A stored record for alice, created at time 3 under identifier 7. -/
def aliceRec : UserRecord :=
  ⟨7, "alice@example.com", some "Alice", some "pic1", "google", some "gsub1", 3, 3⟩

/-- A store holding exactly the alice record. -/
def oneRecStore : Store := ⟨[aliceRec], 8⟩

/-- First concrete authentication call of a sequence. -/
def call1 : AuthCall := ⟨"tok1", aliceInfo, 10, 11⟩

/-- Second concrete authentication call of the sequence. -/
def call2 : AuthCall := ⟨"tok2", aliceInfo2, 20, 21⟩

/-! ### Helper lemmas about the store operations -/

theorem any_eq_false_no_match (E : String) (l : List UserRecord)
    (h : ∀ x ∈ l, x.email ≠ E) :
    l.any (fun x => x.email == E) = false := by
  simp only [List.any_eq_false, beq_iff_eq]
  exact h

theorem any_decomp (E : String) (pre post : List UserRecord) (r : UserRecord)
    (hr : r.email = E) :
    (pre ++ r :: post).any (fun x => x.email == E) = true := by
  simp only [List.any_eq_true, beq_iff_eq]
  exact ⟨r, by simp, hr⟩

theorem updateFirst_decomp (f : UserRecord → UserRecord) (E : String)
    (pre post : List UserRecord) (r : UserRecord)
    (hpre : ∀ x ∈ pre, x.email ≠ E) (hr : r.email = E) :
    updateFirst f E (pre ++ r :: post) = pre ++ f r :: post := by
  induction pre with
  | nil => simp [updateFirst, hr]
  | cons a as ih =>
    have ha : a.email ≠ E := hpre a (by simp)
    simp only [List.cons_append, updateFirst, beq_iff_eq, ha, if_false]
    exact congrArg (a :: ·) (ih (fun x hx => hpre x (by simp [hx])))

theorem find?_decomp (E : String) (pre post : List UserRecord) (r : UserRecord)
    (hpre : ∀ x ∈ pre, x.email ≠ E) (hr : r.email = E) :
    (pre ++ r :: post).find? (fun x => x.email == E) = some r := by
  induction pre with
  | nil =>
    simp only [List.nil_append]
    exact List.find?_cons_of_pos _ (by simp [hr])
  | cons a as ih =>
    have ha : a.email ≠ E := hpre a (by simp)
    simp only [List.cons_append]
    rw [List.find?_cons_of_neg _ (by simp [ha])]
    exact ih (fun x hx => hpre x (by simp [hx]))

theorem filter_decomp (E : String) (pre post : List UserRecord) (r : UserRecord)
    (hpre : ∀ x ∈ pre, x.email ≠ E) (hpost : ∀ x ∈ post, x.email ≠ E)
    (hr : r.email = E) :
    (pre ++ r :: post).filter (fun x => x.email == E) = [r] := by
  rw [List.filter_append]
  have h1 : pre.filter (fun x => x.email == E) = [] := by
    simp only [List.filter_eq_nil_iff, beq_iff_eq]
    exact hpre
  have h2 : post.filter (fun x => x.email == E) = [] := by
    simp only [List.filter_eq_nil_iff, beq_iff_eq]
    exact hpost
  rw [h1, List.filter_cons, if_pos (by simp [hr]), h2]
  simp

theorem exists_first_decomp (E : String) (l : List UserRecord)
    (h : l.any (fun x => x.email == E) = true) :
    ∃ pre r post, l = pre ++ r :: post ∧ (∀ x ∈ pre, x.email ≠ E) ∧
      r.email = E := by
  induction l with
  | nil => simp at h
  | cons a as ih =>
    by_cases ha : a.email = E
    · exact ⟨[], a, as, by simp, by simp, ha⟩
    · have h2 : as.any (fun x => x.email == E) = true := by
        rcases List.any_eq_true.mp h with ⟨x, hx, hpx⟩
        rcases List.mem_cons.mp hx with rfl | hx2
        · exact absurd (by simpa using hpx) ha
        · exact List.any_eq_true.mpr ⟨x, hx2, hpx⟩
      obtain ⟨pre, r, post, h1, hpre, hr⟩ := ih h2
      exact ⟨a :: pre, r, post, by simp [h1],
        by intro x hx; rcases List.mem_cons.mp hx with h | h
           · exact h ▸ ha
           · exact hpre x h, hr⟩

theorem update_one_insert (s : Store) (E : String) (info : IdInfo) (t : Nat)
    (h : ∀ x ∈ s.docs, x.email ≠ E) :
    update_one s E info t =
      { docs := s.docs ++ [newRecord s.nextId info E t],
        nextId := s.nextId + 1 } := by
  unfold update_one
  rw [any_eq_false_no_match E s.docs h]
  simp

theorem update_one_decomp (s : Store) (E : String) (info : IdInfo) (t : Nat)
    (pre post : List UserRecord) (r : UserRecord)
    (hdocs : s.docs = pre ++ r :: post)
    (hpre : ∀ x ∈ pre, x.email ≠ E) (hr : r.email = E) :
    update_one s E info t =
      { docs := pre ++ setFields info E t r :: post, nextId := s.nextId } := by
  unfold update_one
  rw [hdocs, any_decomp E pre post r hr,
    updateFirst_decomp (setFields info E t) E pre post r hpre hr]
  simp

theorem find_one_update_one (s : Store) (E : String) (info : IdInfo) (t : Nat) :
    ∃ r, find_one (update_one s E info t) E = some r := by
  by_cases h : s.docs.any (fun x => x.email == E) = true
  · obtain ⟨pre, r, post, hdocs, hpre, hr⟩ := exists_first_decomp E s.docs h
    rw [update_one_decomp s E info t pre post r hdocs hpre hr]
    exact ⟨setFields info E t r,
      find?_decomp E pre post (setFields info E t r) hpre rfl⟩
  · have h2 : ∀ x ∈ s.docs, x.email ≠ E := by
      intro x hx
      simp only [List.any_eq_true, beq_iff_eq, not_exists] at h
      intro hcontra
      exact h x ⟨hx, hcontra⟩
    rw [update_one_insert s E info t h2]
    exact ⟨newRecord s.nextId info E t,
      find?_decomp E s.docs [] (newRecord s.nextId info E t) h2 rfl⟩

/-- Reduction of `auth_google` on the success path: configured database,
non-empty credential, successful external verification, accepted issuer,
non-empty email, reachable store. -/
theorem auth_google_ok_eq (cfg : Config) (s : Store) (cred : String)
    (info : IdInfo) (E : String) (t1 t2 : Nat)
    (hc : cred ≠ "") (hiss : issuerOk info.iss = true)
    (hem : info.email = some E) (hE : E ≠ "") :
    auth_google cfg (some s) cred (.ok info) none none t1 t2 =
      (some (update_one s E info t1),
       match find_one (update_one s E info t1) E with
       | none => .httpError 401 "Invalid Google token: NoneType object has no attribute get"
       | some doc =>
         .success
           (jwt_encode
             [("sub", ClaimValue.str (toString doc._id)),
              ("email", ClaimValue.str E),
              ("exp", ClaimValue.time (t2 + cfg.JWT_EXPIRES_MIN))]
             cfg.JWT_SECRET JWT_ALG)
           { id := toString doc._id, email := E, name := info.name,
             picture := info.picture, provider := "google" }) := by
  simp only [auth_google, if_neg hc, hiss, hem, if_neg hE]
  cases hfind : find_one (update_one s E info t1) E <;> simp [hfind]

/-- Unfolding of one step of `authSeq` when the call's result is known. -/
theorem authSeq_cons (cfg : Config) (s : Store) (cl : AuthCall)
    (cls : List AuthCall) (s2 : Store) (out : AuthOutcome)
    (h : auth_google cfg (some s) cl.credential (.ok cl.idinfo) none none
      cl.now1 cl.now2 = (some s2, out)) :
    authSeq cfg s (cl :: cls) =
      ((authSeq cfg s2 cls).1, out :: (authSeq cfg s2 cls).2) := by
  simp [authSeq, h]

/-- Invariant of a run of successful same-email authentications: the store
keeps exactly one record for that email, in place, with its identifier and
created timestamp frozen and its updated timestamp tracking the latest
call, and every response carries that identifier. -/
theorem authSeq_inv (cfg : Config) (E : String) (hE : E ≠ "") :
    ∀ (calls : List AuthCall) (s : Store) (pre post : List UserRecord)
      (r : UserRecord) (i c : Nat),
      s.docs = pre ++ r :: post →
      (∀ x ∈ pre, x.email ≠ E) → (∀ x ∈ post, x.email ≠ E) →
      r.email = E → r._id = i → r.created_at = c →
      (∀ cl ∈ calls, cl.credential ≠ "" ∧ issuerOk cl.idinfo.iss = true ∧
        cl.idinfo.email = some E) →
      ∃ pre2 post2 r2,
        (authSeq cfg s calls).1.docs = pre2 ++ r2 :: post2 ∧
        (∀ x ∈ pre2, x.email ≠ E) ∧ (∀ x ∈ post2, x.email ≠ E) ∧
        r2.email = E ∧ r2._id = i ∧ r2.created_at = c ∧
        r2.updated_at = ((calls.getLast?).elim r.updated_at AuthCall.now1) ∧
        ∀ out ∈ (authSeq cfg s calls).2, outUserId out = some (toString i) := by
  intro calls
  induction calls with
  | nil =>
    intro s pre post r i c hdocs hpre hpost hr hid hcr _
    exact ⟨pre, post, r, by simpa [authSeq] using hdocs, hpre, hpost, hr,
      hid, hcr, by simp, by simp [authSeq]⟩
  | cons cl cls ih =>
    intro s pre post r i c hdocs hpre hpost hr hid hcr hcalls
    obtain ⟨hc, hiss, hem⟩ := hcalls cl (by simp)
    have hcalls2 : ∀ x ∈ cls, x.credential ≠ "" ∧ issuerOk x.idinfo.iss = true ∧
        x.idinfo.email = some E := fun x hx => hcalls x (by simp [hx])
    have hupd := update_one_decomp s E cl.idinfo cl.now1 pre post r hdocs hpre hr
    have hfind : find_one (update_one s E cl.idinfo cl.now1) E =
        some (setFields cl.idinfo E cl.now1 r) := by
      rw [hupd]
      exact find?_decomp E pre post (setFields cl.idinfo E cl.now1 r) hpre rfl
    have hok := auth_google_ok_eq cfg s cl.credential cl.idinfo E cl.now1 cl.now2
      hc hiss hem hE
    rw [hfind] at hok
    have hseq := authSeq_cons cfg s cl cls (update_one s E cl.idinfo cl.now1) _ hok
    obtain ⟨pre2, post2, r3, h1, h2, h3, h4, h5, h6, h7, h8⟩ :=
      ih (update_one s E cl.idinfo cl.now1) pre post
        (setFields cl.idinfo E cl.now1 r) i c (by rw [hupd]) hpre hpost rfl hid hcr
        hcalls2
    refine ⟨pre2, post2, r3, ?_, h2, h3, h4, h5, h6, ?_, ?_⟩
    · rw [hseq]
      exact h1
    · cases cls with
      | nil =>
        simp only [List.getLast?_nil, Option.elim] at h7
        simpa using h7
      | cons b bs =>
        rw [List.getLast?_cons_cons]
        have hsome : ∃ x, (b :: bs).getLast? = some x := by
          cases hx : (b :: bs).getLast? with
          | none => exact absurd (List.getLast?_eq_none_iff.mp hx) (by simp)
          | some x => exact ⟨x, rfl⟩
        obtain ⟨x, hx⟩ := hsome
        rw [hx] at h7 ⊢
        simpa using h7
    · intro out hout
      rw [hseq] at hout
      rcases List.mem_cons.mp hout with rfl | hout2
      · simp only [outUserId, outUser, Option.map_some]
        have : (setFields cl.idinfo E cl.now1 r)._id = i := hid
        rw [this]
        rfl
      · exact h8 out hout2

/-- C1: for every sequence of successful authentications carrying the same
email, the upsert never creates a second user record keyed on that email:
the first call creates the record, every later call mutates that same
record, the returned identifier is the same across all calls, the created
timestamp keeps the value set on the first call, and the updated timestamp
is set to the time of the latest call. -/
theorem claim_C1 (cfg : Config) (s0 : Store) (E : String)
    (calls : List AuthCall) (c0 cL : AuthCall)
    (hE : E ≠ "")
    (hcalls : ∀ cl ∈ calls, cl.credential ≠ "" ∧ issuerOk cl.idinfo.iss = true ∧
      cl.idinfo.email = some E)
    (h0 : ∀ x ∈ s0.docs, x.email ≠ E)
    (hhead : calls.head? = some c0) (hlast : calls.getLast? = some cL) :
    ((authSeq cfg s0 calls).1.docs.filter (fun x => x.email == E)).length = 1 ∧
    (∀ out ∈ (authSeq cfg s0 calls).2, outUserId out = some (toString s0.nextId)) ∧
    (find_one (authSeq cfg s0 calls).1 E).map UserRecord._id = some s0.nextId ∧
    (find_one (authSeq cfg s0 calls).1 E).map UserRecord.created_at = some c0.now1 ∧
    (find_one (authSeq cfg s0 calls).1 E).map UserRecord.updated_at = some cL.now1 := by
  cases calls with
  | nil => simp at hhead
  | cons cl cls =>
    have hc0 : cl = c0 := by simpa using hhead
    subst hc0
    obtain ⟨hc, hiss, hem⟩ := hcalls cl (by simp)
    have hcalls2 : ∀ x ∈ cls, x.credential ≠ "" ∧ issuerOk x.idinfo.iss = true ∧
        x.idinfo.email = some E := fun x hx => hcalls x (by simp [hx])
    have hupd := update_one_insert s0 E cl.idinfo cl.now1 h0
    have hfind : find_one (update_one s0 E cl.idinfo cl.now1) E =
        some (newRecord s0.nextId cl.idinfo E cl.now1) := by
      rw [hupd]
      exact find?_decomp E s0.docs [] (newRecord s0.nextId cl.idinfo E cl.now1) h0 rfl
    have hok := auth_google_ok_eq cfg s0 cl.credential cl.idinfo E cl.now1 cl.now2
      hc hiss hem hE
    rw [hfind] at hok
    have hseq := authSeq_cons cfg s0 cl cls (update_one s0 E cl.idinfo cl.now1) _ hok
    obtain ⟨pre2, post2, r3, h1, h2, h3, h4, h5, h6, h7, h8⟩ :=
      authSeq_inv cfg E hE cls (update_one s0 E cl.idinfo cl.now1) s0.docs []
        (newRecord s0.nextId cl.idinfo E cl.now1) s0.nextId cl.now1
        (by rw [hupd]) h0 (by simp) rfl rfl rfl hcalls2
    have hdocs2 : (authSeq cfg s0 (cl :: cls)).1.docs = pre2 ++ r3 :: post2 := by
      rw [hseq]
      exact h1
    have hfind2 : find_one (authSeq cfg s0 (cl :: cls)).1 E = some r3 := by
      unfold find_one
      rw [hdocs2]
      exact find?_decomp E pre2 post2 r3 h2 h4
    refine ⟨?_, ?_, ?_, ?_, ?_⟩
    · rw [hdocs2, filter_decomp E pre2 post2 r3 h2 h3 h4]
      rfl
    · intro out hout
      rw [hseq] at hout
      rcases List.mem_cons.mp hout with rfl | hout2
      · rfl
      · exact h8 out hout2
    · rw [hfind2]
      simp [h5]
    · rw [hfind2]
      simp [h6]
    · rw [hfind2]
      cases cls with
      | nil =>
        have hcl : cl = cL := by simpa using hlast
        simp only [List.getLast?_nil, Option.elim] at h7
        simp [h7, hcl, newRecord]
      | cons b bs =>
        rw [List.getLast?_cons_cons] at hlast
        rw [hlast] at h7
        simpa using h7

/-- C2: for every successful authentication, the minted token's claims set
is exactly {sub, email, exp} where sub is the upserted user record's
generated identifier (not the provider's subject claim), email is the
verified email, and the token is signed with the process-wide secret
using the fixed symmetric algorithm HS256. -/
theorem claim_C2 (cfg : Config) (s : Store) (cred : String) (info : IdInfo)
    (E : String) (t1 t2 : Nat)
    (hc : cred ≠ "") (hiss : issuerOk info.iss = true)
    (hem : info.email = some E) (hE : E ≠ "") :
    ∃ r, find_one (update_one s E info t1) E = some r ∧
      outToken (auth_google cfg (some s) cred (.ok info) none none t1 t2).2 =
        some { claims := [("sub", ClaimValue.str (toString r._id)),
                          ("email", ClaimValue.str E),
                          ("exp", ClaimValue.time (t2 + cfg.JWT_EXPIRES_MIN))],
               key := cfg.JWT_SECRET, algorithm := "HS256" } := by
  obtain ⟨r, hr⟩ := find_one_update_one s E info t1
  refine ⟨r, hr, ?_⟩
  rw [auth_google_ok_eq cfg s cred info E t1 t2 hc hiss hem hE]
  simp only [hr]
  rfl

/-- C3: for every minted token, the expiry claim equals the issuance time
plus the configured expiry duration in minutes, whose default value is
43200 minutes (30 days); each successful authentication produces a fresh
token whose expiry is computed from that call's own clock reading. -/
theorem claim_C3 (cfg : Config) (s : Store) (cred : String) (info : IdInfo)
    (E : String) (t1 t2 : Nat)
    (hc : cred ≠ "") (hiss : issuerOk info.iss = true)
    (hem : info.email = some E) (hE : E ≠ "") :
    ((outToken (auth_google cfg (some s) cred (.ok info) none none t1 t2).2).bind
        (fun j => j.claims.lookup "exp")) =
      some (ClaimValue.time (t2 + cfg.JWT_EXPIRES_MIN)) ∧
    JWT_EXPIRES_MIN_DEFAULT = 30 * 24 * 60 := by
  constructor
  · obtain ⟨r, hr⟩ := find_one_update_one s E info t1
    rw [auth_google_ok_eq cfg s cred info E t1 t2 hc hiss hem hE]
    simp only [hr]
    rfl
  · rfl

/-- C7: for every credential that passes signature, audience and issuer
validation but carries no non-empty email claim, the flow fails with the
missing-email message surfaced as the 401 verification failure, the store
is unchanged, and no token is issued. -/
theorem claim_C7 (cfg : Config) (s : Store) (cred : String) (info : IdInfo)
    (updateErr findErr : Option String) (t1 t2 : Nat)
    (hc : cred ≠ "") (hiss : issuerOk info.iss = true)
    (hem : info.email = none ∨ info.email = some "") :
    auth_google cfg (some s) cred (.ok info) updateErr findErr t1 t2 =
      (some s, .httpError 401 "Invalid Google token: No email in Google token") := by
  rcases hem with h | h <;> simp [auth_google, if_neg hc, hiss, h]

/-- C8: for every successful authentication, the returned user view
contains exactly the fields id, email, name (nullable), picture
(nullable) and provider with the constant value "google", id being the
upserted record's public identifier and nothing else. -/
theorem claim_C8 (cfg : Config) (s : Store) (cred : String) (info : IdInfo)
    (E : String) (t1 t2 : Nat)
    (hc : cred ≠ "") (hiss : issuerOk info.iss = true)
    (hem : info.email = some E) (hE : E ≠ "") :
    ∃ r, find_one (update_one s E info t1) E = some r ∧
      outUser (auth_google cfg (some s) cred (.ok info) none none t1 t2).2 =
        some { id := toString r._id, email := E, name := info.name,
               picture := info.picture, provider := "google" } := by
  obtain ⟨r, hr⟩ := find_one_update_one s E info t1
  refine ⟨r, hr, ?_⟩
  rw [auth_google_ok_eq cfg s cred info E t1 t2 hc hiss hem hE]
  simp only [hr]
  rfl

/-- C10: every successful authentication unconditionally overwrites the
stored name, picture and provider-subject fields with the values of the
latest verified claims (a claim omitted in the latest credential
overwrites the stored field with null), and only the record identifier
and the created timestamp are shielded from the overwrite, while the
updated timestamp is set to the call time. -/
theorem claim_C10 (cfg : Config) (s : Store) (cred : String) (info : IdInfo)
    (E : String) (t1 t2 : Nat) (pre post : List UserRecord) (r : UserRecord)
    (hdocs : s.docs = pre ++ r :: post)
    (hpre : ∀ x ∈ pre, x.email ≠ E) (hr : r.email = E)
    (hc : cred ≠ "") (hiss : issuerOk info.iss = true)
    (hem : info.email = some E) (hE : E ≠ "") :
    ∃ r2, (auth_google cfg (some s) cred (.ok info) none none t1 t2).1 =
        some { docs := pre ++ r2 :: post, nextId := s.nextId } ∧
      r2.name = info.name ∧ r2.picture = info.picture ∧
      r2.google_sub = info.sub ∧ r2.email = E ∧ r2.provider = "google" ∧
      r2.updated_at = t1 ∧ r2._id = r._id ∧ r2.created_at = r.created_at := by
  refine ⟨setFields info E t1 r, ?_, rfl, rfl, rfl, rfl, rfl, rfl, rfl, rfl⟩
  rw [auth_google_ok_eq cfg s cred info E t1 t2 hc hiss hem hE]
  exact congrArg some (update_one_decomp s E info t1 pre post r hdocs hpre hr)

/-- C9: the database-configured check runs before the credential check:
for every request made while the database handle is unconfigured, the
endpoint returns the 500 "Database not configured" response — even when
the submitted credential is empty — so the MissingCredential response is
never produced when the store is unconfigured. -/
theorem claim_C9 (cfg : Config) (credential : String)
    (verifyResult : Except String IdInfo) (updateErr findErr : Option String)
    (t1 t2 : Nat) :
    auth_google cfg none credential verifyResult updateErr findErr t1 t2 =
      (none, .httpError 500 "Database not configured") ∧
    (auth_google cfg none credential verifyResult updateErr findErr t1 t2).2 ≠
      .httpError 400 "Missing credential" := by
  refine ⟨rfl, ?_⟩
  intro h
  simp [auth_google] at h

/-- C6 counterexample: with the database handle unconfigured, an
empty-credential request does not produce the MissingCredential response
but the 500 database error, refuting the claim for such requests. -/
theorem claim_C6_counterexample :
    auth_google sampleCfg none "" (Except.error "boom") none none 0 0 =
      (none, .httpError 500 "Database not configured") ∧
    (auth_google sampleCfg none "" (Except.error "boom") none none 0 0).2 ≠
      .httpError 400 "Missing credential" := by
  refine ⟨rfl, ?_⟩
  decide

/-- C6 (amended): provided the database handle is configured, every
request whose credential string is empty fails with 400 "Missing
credential" — a status distinct from the verification-failure status —
independently of the verifier outcome and of the store oracles (so before
any verification or store work), and the store is unchanged. -/
theorem claim_C6 (cfg : Config) (s : Store) (verifyResult : Except String IdInfo)
    (updateErr findErr : Option String) (t1 t2 : Nat) :
    auth_google cfg (some s) "" verifyResult updateErr findErr t1 t2 =
      (some s, .httpError 400 "Missing credential") := by
  simp [auth_google]

/-- C5 counterexample: a credential whose issuer claim is "evil.com" but
whose cryptographic verification fails is rejected with the library
reason, not with the wrong-issuer reason, refuting the claim's
"regardless of signature validity" part. -/
theorem claim_C5_counterexample :
    auth_google sampleCfg (some emptyStore) "header.payload.sig"
        (verify_oauth2_token false "Could not verify token signature." evilInfo)
        none none 0 0 =
      (some emptyStore,
       .httpError 401 "Invalid Google token: Could not verify token signature.") ∧
    issuerOk evilInfo.iss = false ∧
    (auth_google sampleCfg (some emptyStore) "header.payload.sig"
        (verify_oauth2_token false "Could not verify token signature." evilInfo)
        none none 0 0).2 ≠
      .httpError 401 "Invalid Google token: Wrong issuer." := by
  refine ⟨rfl, rfl, ?_⟩
  decide

/-- C5 (amended): for every credential whose cryptographic verification
succeeds but whose issuer claim is not one of the two accepted canonical
issuer strings, the flow fails with the 401 wrong-issuer verification
failure and no store write occurs; when the cryptographic verification
itself fails, the flow fails with the same single 401 verification
failure carrying the library reason instead, also with no store write. -/
theorem claim_C5 (cfg : Config) (s : Store) (cred : String) (info : IdInfo)
    (libErr : String) (updateErr findErr : Option String) (t1 t2 : Nat)
    (hc : cred ≠ "") (hiss : issuerOk info.iss = false) :
    auth_google cfg (some s) cred (verify_oauth2_token true libErr info)
        updateErr findErr t1 t2 =
      (some s, .httpError 401 "Invalid Google token: Wrong issuer.") ∧
    auth_google cfg (some s) cred (verify_oauth2_token false libErr info)
        updateErr findErr t1 t2 =
      (some s, .httpError 401 ("Invalid Google token: " ++ libErr)) := by
  constructor
  · simp [auth_google, verify_oauth2_token, if_neg hc, hiss]
  · simp [auth_google, verify_oauth2_token, if_neg hc]

/-- C4 counterexample: with the store reachable for the upsert but
unreachable for the subsequent read, the request fails with the 401
verification-failure status (not a distinct server-error status), no
token is returned, yet the upserted record durably exists — refuting
both the distinct-status part and the no-partial-record part. -/
theorem claim_C4_counterexample :
    auth_google sampleCfg (some emptyStore) "header.payload.sig2"
        (Except.ok aliceInfo) none (some "connection reset by peer") 5 6 =
      (some ⟨[⟨0, "alice@example.com", some "Alice", some "pic1", "google",
               some "gsub1", 5, 5⟩], 1⟩,
       .httpError 401 "Invalid Google token: connection reset by peer") ∧
    outToken (auth_google sampleCfg (some emptyStore) "header.payload.sig2"
        (Except.ok aliceInfo) none (some "connection reset by peer") 5 6).2 =
      none := by
  exact ⟨rfl, rfl⟩

/-- C4 (amended): when the database handle is unconfigured, every request
fails with the 500 "Database not configured" server error — distinct from
the verification-failure status — with no token and no store write.  But
when a configured store raises mid-flow, the exception is caught by the
generic handler and surfaced as the 401 verification-failure status with
no token: a failure during the upsert write leaves the store unchanged,
while a failure after the upsert (during the re-read of the record)
leaves the newly upserted record in place, so the durable upsert and the
token issuance are not atomic. -/
theorem claim_C4 (cfg : Config) (s : Store) (cred : String) (info : IdInfo)
    (E : String) (msg : String) (t1 t2 : Nat)
    (hc : cred ≠ "") (hiss : issuerOk info.iss = true)
    (hem : info.email = some E) (hE : E ≠ "") :
    (∀ credential verifyResult updateErr findErr,
       auth_google cfg none credential verifyResult updateErr findErr t1 t2 =
         (none, .httpError 500 "Database not configured")) ∧
    (∀ findErr,
       auth_google cfg (some s) cred (.ok info) (some msg) findErr t1 t2 =
         (some s, .httpError 401 ("Invalid Google token: " ++ msg))) ∧
    auth_google cfg (some s) cred (.ok info) none (some msg) t1 t2 =
      (some (update_one s E info t1),
       .httpError 401 ("Invalid Google token: " ++ msg)) := by
  refine ⟨fun _ _ _ _ => rfl, fun findErr => ?_, ?_⟩
  · simp [auth_google, if_neg hc, hiss, hem, if_neg hE]
  · simp [auth_google, if_neg hc, hiss, hem, if_neg hE]

/-- Witness for C1: a concrete two-call sequence for alice on an empty
store, instantiating the sequence theorem. -/
theorem claim_C1_witness :
    (∀ cl ∈ [call1, call2], cl.credential ≠ "" ∧ issuerOk cl.idinfo.iss = true ∧
      cl.idinfo.email = some "alice@example.com") ∧
    ((authSeq sampleCfg emptyStore [call1, call2]).1.docs.filter
        (fun x => x.email == "alice@example.com")).length = 1 ∧
    (∀ out ∈ (authSeq sampleCfg emptyStore [call1, call2]).2,
      outUserId out = some (toString emptyStore.nextId)) ∧
    (find_one (authSeq sampleCfg emptyStore [call1, call2]).1
        "alice@example.com").map UserRecord._id = some emptyStore.nextId ∧
    (find_one (authSeq sampleCfg emptyStore [call1, call2]).1
        "alice@example.com").map UserRecord.created_at = some call1.now1 ∧
    (find_one (authSeq sampleCfg emptyStore [call1, call2]).1
        "alice@example.com").map UserRecord.updated_at = some call2.now1 := by
  have h := claim_C1 sampleCfg emptyStore "alice@example.com" [call1, call2]
    call1 call2 (by decide) (by decide) (by decide) (by decide) (by decide)
  exact ⟨by decide, h.1, h.2.1, h.2.2.1, h.2.2.2.1, h.2.2.2.2⟩

/-- Witness for C2: concrete token claims of a first authentication. -/
theorem claim_C2_witness :
    issuerOk aliceInfo.iss = true ∧
    ∃ r, find_one (update_one emptyStore "alice@example.com" aliceInfo 3)
        "alice@example.com" = some r ∧
      outToken (auth_google sampleCfg (some emptyStore) "tok"
          (.ok aliceInfo) none none 3 4).2 =
        some { claims := [("sub", ClaimValue.str (toString r._id)),
                          ("email", ClaimValue.str "alice@example.com"),
                          ("exp", ClaimValue.time (4 + sampleCfg.JWT_EXPIRES_MIN))],
               key := sampleCfg.JWT_SECRET, algorithm := "HS256" } :=
  ⟨by decide, claim_C2 sampleCfg emptyStore "tok" aliceInfo "alice@example.com"
    3 4 (by decide) (by decide) (by decide) (by decide)⟩

/-- Witness for C3: concrete expiry claim of a minted token. -/
theorem claim_C3_witness :
    aliceInfo.email = some "alice@example.com" ∧
    (((outToken (auth_google sampleCfg (some emptyStore) "tok"
          (.ok aliceInfo) none none 3 4).2).bind
        (fun j => j.claims.lookup "exp")) =
      some (ClaimValue.time (4 + sampleCfg.JWT_EXPIRES_MIN)) ∧
     JWT_EXPIRES_MIN_DEFAULT = 30 * 24 * 60) :=
  ⟨by decide, claim_C3 sampleCfg emptyStore "tok" aliceInfo "alice@example.com"
    3 4 (by decide) (by decide) (by decide) (by decide)⟩

/-- Witness for C4 (amended): the three failure shapes at concrete inputs. -/
theorem claim_C4_witness :
    ("tok" : String) ≠ "" ∧
    auth_google sampleCfg none "tok" (.ok aliceInfo) none none 5 6 =
      (none, .httpError 500 "Database not configured") ∧
    auth_google sampleCfg (some emptyStore) "tok" (.ok aliceInfo)
        (some "down") none 5 6 =
      (some emptyStore, .httpError 401 ("Invalid Google token: " ++ "down")) ∧
    auth_google sampleCfg (some emptyStore) "tok" (.ok aliceInfo)
        none (some "down") 5 6 =
      (some (update_one emptyStore "alice@example.com" aliceInfo 5),
       .httpError 401 ("Invalid Google token: " ++ "down")) := by
  have h := claim_C4 sampleCfg emptyStore "tok" aliceInfo "alice@example.com"
    "down" 5 6 (by decide) (by decide) (by decide) (by decide)
  exact ⟨by decide, h.1 "tok" (.ok aliceInfo) none none, h.2.1 none, h.2.2⟩

/-- Witness for C5 (amended): concrete rejection of the evil.com issuer in
both signature situations. -/
theorem claim_C5_witness :
    issuerOk evilInfo.iss = false ∧
    (auth_google sampleCfg (some emptyStore) "tok"
        (verify_oauth2_token true "sig error" evilInfo) none none 0 0 =
      (some emptyStore, .httpError 401 "Invalid Google token: Wrong issuer.") ∧
     auth_google sampleCfg (some emptyStore) "tok"
        (verify_oauth2_token false "sig error" evilInfo) none none 0 0 =
      (some emptyStore, .httpError 401 ("Invalid Google token: " ++ "sig error"))) :=
  ⟨by decide, claim_C5 sampleCfg emptyStore "tok" evilInfo "sig error"
    none none 0 0 (by decide) (by decide)⟩

/-- Witness for C7: concrete rejection of claims without an email. -/
theorem claim_C7_witness :
    (noEmailInfo.email = none ∨ noEmailInfo.email = some "") ∧
    auth_google sampleCfg (some emptyStore) "tok" (.ok noEmailInfo)
        none none 3 4 =
      (some emptyStore,
       .httpError 401 "Invalid Google token: No email in Google token") :=
  ⟨Or.inl rfl, claim_C7 sampleCfg emptyStore "tok" noEmailInfo none none 3 4
    (by decide) (by decide) (Or.inl rfl)⟩

/-- Witness for C8: concrete user view of a first authentication. -/
theorem claim_C8_witness :
    ("tok" : String) ≠ "" ∧
    ∃ r, find_one (update_one emptyStore "alice@example.com" aliceInfo 3)
        "alice@example.com" = some r ∧
      outUser (auth_google sampleCfg (some emptyStore) "tok"
          (.ok aliceInfo) none none 3 4).2 =
        some { id := toString r._id, email := "alice@example.com",
               name := aliceInfo.name, picture := aliceInfo.picture,
               provider := "google" } :=
  ⟨by decide, claim_C8 sampleCfg emptyStore "tok" aliceInfo "alice@example.com"
    3 4 (by decide) (by decide) (by decide) (by decide)⟩

/-- Witness for C10: a second authentication whose claims omit the
picture overwrites the stored picture with null and keeps identifier and
created timestamp. -/
theorem claim_C10_witness :
    aliceRec.picture = some "pic1" ∧ aliceInfo2.picture = none ∧
    ∃ r2, (auth_google sampleCfg (some oneRecStore) "tok" (.ok aliceInfo2)
        none none 9 10).1 =
        some { docs := [] ++ r2 :: [], nextId := oneRecStore.nextId } ∧
      r2.name = aliceInfo2.name ∧ r2.picture = aliceInfo2.picture ∧
      r2.google_sub = aliceInfo2.sub ∧ r2.email = "alice@example.com" ∧
      r2.provider = "google" ∧ r2.updated_at = 9 ∧ r2._id = aliceRec._id ∧
      r2.created_at = aliceRec.created_at :=
  ⟨rfl, rfl, claim_C10 sampleCfg oneRecStore "tok" aliceInfo2
    "alice@example.com" 9 10 [] [] aliceRec rfl (by decide) rfl
    (by decide) (by decide) (by decide) (by decide)⟩
